import Mathlib

/-!
# Mode-Aware Crisis Navigation & Durable State Engine — verification

Shallow embedding of the grief-ops-suite repository's state engine and the
presentation code under `src/`.  The finite-state machine `crisisStateReducer`
is embedded from the TypeScript reducer in
`.cursor/rules/userdoc-guidelines.md`; the Journal, Navigation Guard and Sync
Reconciler are not present in the repository's source tree and are modelled
from the specification, as marked in their doc comments.
-/

/-- The operational modes, embedded from the TypeScript constant
`GriefOpsStates = { IDLE: 'idle', NORMAL: 'normal', CRISIS_DETECTED:
'crisis_detected', NIGHT_WATCH: 'night_watch', LOCKED: 'locked', RECOVERY:
'recovery', STAND_DOWN: 'stand_down' }`. -/
inductive GriefOpsState where
  | idle
  | normal
  | crisis_detected
  | night_watch
  | locked
  | recovery
  | stand_down
  deriving DecidableEq, Repr

/-- The transition events, embedded from the TypeScript union
`TransitionEvent = ESCALATE_CRISIS | DEESCALATE | LOCK | STAND_DOWN |
ABANDON_ATTEMPT` (tag of the event object). -/
inductive TransitionEvent where
  | ESCALATE_CRISIS
  | DEESCALATE
  | LOCK
  | STAND_DOWN
  | ABANDON_ATTEMPT
  deriving DecidableEq, Repr

open GriefOpsState TransitionEvent

/-- Embedded from `function crisisStateReducer(state, event)` in the
repository's operating rules: a switch on the state, with an inner check on
the event tag, falling through to `return state` (state unchanged on any
event not handled for the current state). -/
def crisisStateReducer (state : GriefOpsState) (event : TransitionEvent) :
    GriefOpsState :=
  match state with
  | .normal =>
      if event = .ESCALATE_CRISIS then .crisis_detected else state
  | .crisis_detected =>
      if event = .LOCK then .locked
      else if event = .STAND_DOWN then .night_watch
      else state
  | .night_watch =>
      if event = .DEESCALATE then .recovery else state
  | _ => state

/-- The (state, event) pairs listed as rows of the specification's transition
table (the `RESUME` pseudo-event is crash recovery, handled by `recover`
below, not by the reducer). -/
def tableDefined : GriefOpsState → TransitionEvent → Bool
  | .normal, .ESCALATE_CRISIS => true
  | .crisis_detected, .LOCK => true
  | .crisis_detected, .STAND_DOWN => true
  | .night_watch, .DEESCALATE => true
  | .recovery, .STAND_DOWN => true
  | .locked, .ABANDON_ATTEMPT => true
  | _, _ => false

/-- A locally logged record of an event the State Machine did not honour. -/
structure RejectedRecord where
  state : GriefOpsState
  event : TransitionEvent
  deriving DecidableEq, Repr

/-- Modelled from the spec: the State Machine's handling of one event around
`crisisStateReducer` — the logging layer is not in `src/`.  Any event not
present for the current state leaves the state unchanged and is appended to
the local rejected-event log; the `LOCKED`/`ABANDON_ATTEMPT` no-op row is
also recorded (abandonment is recorded, never honored automatically).  The
function is total: no exception ever reaches the caller. -/
def stateMachineStep (s : GriefOpsState) (e : TransitionEvent)
    (log : List RejectedRecord) : GriefOpsState × List RejectedRecord :=
  if tableDefined s e = false ∨ (s = .locked ∧ e = .ABANDON_ATTEMPT) then
    (crisisStateReducer s e, log ++ [⟨s, e⟩])
  else
    (crisisStateReducer s e, log)

/-- A run of the State Machine: `Run s es s'` holds when feeding the event
sequence `es` to `crisisStateReducer` starting from `s` can end in `s'`. -/
inductive Run : GriefOpsState → List TransitionEvent → GriefOpsState → Prop where
  | nil (s : GriefOpsState) : Run s [] s
  | cons (s : GriefOpsState) (e : TransitionEvent) (es : List TransitionEvent)
      (s' : GriefOpsState) (h : Run (crisisStateReducer s e) es s') :
      Run s (e :: es) s'

/-- A Write-Ahead Session Journal entry, per the spec's data model:
`(sequenceNumber, intent, targetState, timestamp, committed)`.  The timestamp
is an abstract tick. -/
structure JournalEntry where
  sequenceNumber : Nat
  intent : TransitionEvent
  targetState : GriefOpsState
  timestamp : Nat
  committed : Bool
  deriving DecidableEq, Repr

/-- Modelled from the spec: the state reconstructed "strictly from the last
entry in the Journal with `committed = true`"; the journal layer is not in
`src/`.  `init` is the state at first app launch (`IDLE`) for an empty
committed history. -/
def lastCommittedState (j : List JournalEntry) (init : GriefOpsState) :
    GriefOpsState :=
  match (j.filter (·.committed)).getLast? with
  | some entry => entry.targetState
  | none => init

/-- Modelled from the spec: restart repair-on-read — reconstruct the current
state from the last committed entry; if the most recent entry is uncommitted,
re-apply the OperationalState mutation deterministically from the intent and
mark that entry committed.  Returns the resumed state and the repaired
journal. -/
def recover (j : List JournalEntry) (init : GriefOpsState) :
    GriefOpsState × List JournalEntry :=
  match j.getLast? with
  | none => (init, j)
  | some entry =>
      if entry.committed then
        (lastCommittedState j init, j)
      else
        (crisisStateReducer (lastCommittedState j init) entry.intent,
         j.dropLast ++ [{ entry with committed := true }])

/-- The entry the Journal appends (uncommitted) before a transition with
intent `e` is applied, when the durable history is `j`. -/
def pendingEntry (j : List JournalEntry) (init : GriefOpsState)
    (e : TransitionEvent) (now : Nat) : JournalEntry :=
  { sequenceNumber := j.length
    intent := e
    targetState := crisisStateReducer (lastCommittedState j init) e
    timestamp := now
    committed := false }

/-- The points at which the process may terminate while performing one
transition: after the Journal append but before the OperationalState mutation,
after the mutation but before the commit-mark, and after the commit-mark. -/
inductive CrashPoint where
  | afterAppend
  | afterApply
  | afterMark
  deriving DecidableEq, Repr

/-- The durable journal contents at each crash point of a transition with
intent `e` started from committed history `j`.  The OperationalState mutation
(between append and mark) does not touch the journal, and recovery never
trusts the possibly half-applied OperationalState row, only the journal. -/
def journalAt (cp : CrashPoint) (j : List JournalEntry) (init : GriefOpsState)
    (e : TransitionEvent) (now : Nat) : List JournalEntry :=
  match cp with
  | .afterAppend => j ++ [pendingEntry j init e now]
  | .afterApply => j ++ [pendingEntry j init e now]
  | .afterMark => j ++ [{ pendingEntry j init e now with committed := true }]

lemma lastCommittedState_append_uncommitted (j : List JournalEntry)
    (init : GriefOpsState) (entry : JournalEntry) (h : entry.committed = false) :
    lastCommittedState (j ++ [entry]) init = lastCommittedState j init := by
  simp [lastCommittedState, List.filter_append, h]

lemma lastCommittedState_append_committed (j : List JournalEntry)
    (init : GriefOpsState) (entry : JournalEntry) (h : entry.committed = true) :
    lastCommittedState (j ++ [entry]) init = entry.targetState := by
  simp [lastCommittedState, List.filter_append, h]

/-- C1: crash-recovery exactness.  For every crash point between the Journal
append of a transition intent and its commit-mark (and after the mark),
restart reconstructs exactly the state that completing the transition would
have produced, and the repaired journal is in every case the history with the
entry committed exactly once — no lost and no duplicated application.  The
`afterMark` case also shows repair is idempotent: recovery of an already
committed journal changes nothing. -/
theorem c1_crash_recovery_exact (cp : CrashPoint) (j : List JournalEntry)
    (init : GriefOpsState) (e : TransitionEvent) (now : Nat) :
    recover (journalAt cp j init e now) init =
      (crisisStateReducer (lastCommittedState j init) e,
       j ++ [{ pendingEntry j init e now with committed := true }]) := by
  have huncom :
      lastCommittedState (j ++ [pendingEntry j init e now]) init =
        lastCommittedState j init :=
    lastCommittedState_append_uncommitted j init (pendingEntry j init e now) rfl
  have hcom :
      lastCommittedState
          (j ++ [{ pendingEntry j init e now with committed := true }]) init =
        crisisStateReducer (lastCommittedState j init) e :=
    lastCommittedState_append_committed j init
      { pendingEntry j init e now with committed := true } rfl
  cases cp with
  | afterAppend =>
      simp only [journalAt, recover, List.getLast?_concat, List.dropLast_concat]
      rw [huncom]
      simp [pendingEntry]
  | afterApply =>
      simp only [journalAt, recover, List.getLast?_concat, List.dropLast_concat]
      rw [huncom]
      simp [pendingEntry]
  | afterMark =>
      simp only [journalAt, recover, List.getLast?_concat, List.dropLast_concat]
      rw [hcom]
      simp

/-- C4: `transition(S, E)` is a pure deterministic function of its arguments:
two runs replaying the same event sequence from the same initial state always
end in the same final state. -/
theorem c4_replay_deterministic (s : GriefOpsState) (es : List TransitionEvent)
    (s1 s2 : GriefOpsState) (h1 : Run s es s1) (h2 : Run s es s2) : s1 = s2 := by
  induction h1 generalizing s2 with
  | nil s => cases h2; rfl
  | cons s e es s' _ ih =>
      cases h2 with
      | cons _ _ _ _ h' => exact ih _ h'

theorem c4_replay_deterministic_witness :
    Run .normal [.ESCALATE_CRISIS, .LOCK] .locked ∧
      (GriefOpsState.locked = GriefOpsState.locked) := by
  refine ⟨Run.cons _ _ _ _ (Run.cons _ _ _ _ (Run.nil _)), ?_⟩
  exact c4_replay_deterministic .normal [.ESCALATE_CRISIS, .LOCK] .locked .locked
    (Run.cons _ _ _ _ (Run.cons _ _ _ _ (Run.nil _)))
    (Run.cons _ _ _ _ (Run.cons _ _ _ _ (Run.nil _)))

/-- C5: for every state `S` and event `E` with no entry for `S` in the
transition table, the step returns `S` unchanged and appends exactly one
rejected-event record to the log; the step is a total function, so nothing
is thrown to the caller. -/
theorem c5_unlisted_event_identity (s : GriefOpsState) (e : TransitionEvent)
    (log : List RejectedRecord) (h : tableDefined s e = false) :
    stateMachineStep s e log = (s, log ++ [⟨s, e⟩]) := by
  have hid : crisisStateReducer s e = s := by
    revert h; cases s <;> cases e <;> decide
  simp [stateMachineStep, h, hid]

theorem c5_unlisted_event_identity_witness :
    tableDefined .locked .DEESCALATE = false ∧
      stateMachineStep .locked .DEESCALATE [] =
        (.locked, [⟨.locked, .DEESCALATE⟩]) :=
  ⟨by decide, c5_unlisted_event_identity .locked .DEESCALATE [] (by decide)⟩

/-- C6: in state `LOCKED`, the event `ABANDON_ATTEMPT` leaves the state
`LOCKED` and a rejection record of the abandonment is appended to the durable
log. -/
theorem c6_locked_abandon_noop (log : List RejectedRecord) :
    stateMachineStep .locked .ABANDON_ATTEMPT log =
      (.locked, log ++ [⟨.locked, .ABANDON_ATTEMPT⟩]) := by
  simp [stateMachineStep, tableDefined, crisisStateReducer]

/-- The route identifiers registered in `RootNavigator` (from
`app/navigation/routes`), plus the single reserved panic route of the spec's
external-interfaces section. -/
inductive Routes where
  | OPS_SELECTOR
  | DEPLOYMENT_BRIEFING
  | LOCKED_MODE_BRIEFING
  | NIGHT_WATCH
  | FOREMAN
  | ROAD_CAPTAIN_LOCKED
  | PANIC
  deriving DecidableEq, Repr

/-- The single process-wide OperationalState record of the spec's data
model. -/
structure OperationalState where
  currentMode : GriefOpsState
  currentRoute : Routes
  enteredAt : Nat
  contextToken : Option Nat
  deriving DecidableEq, Repr

/-- A route's static permission record, per the Guard's algorithm step 1. -/
structure RoutePermission where
  allowedModes : List GriefOpsState
  allowBack : Bool
  requiresConfirmation : Bool

/-- Reason codes for a rejected transition: containment (mode not allowed for
the route), State Machine rejection, missing confirmation token, or a
persistence failure at commit time. -/
inductive RejectReason where
  | containment
  | fsmRejected
  | unconfirmed
  | persistenceFailure
  deriving DecidableEq, Repr

/-- Outcome of `requestTransition`. -/
inductive GuardResult where
  | Approved (newRoute : Routes)
  | Rejected (reason : RejectReason)
  deriving DecidableEq, Repr

/-- Durable-store and signalling actions the Guard performs, in the order it
performs them, recorded as a trace. -/
inductive GuardAction where
  | journalAppend
  | storeCommit
  | markCommitted
  | signalRender (route : Routes)
  deriving DecidableEq, Repr

/-- The OperationalState after a transition is applied: the mode moves by
`crisisStateReducer`, the current route becomes the target, and `enteredAt`
is stamped. -/
def applyTransition (s : OperationalState) (targetRoute : Routes)
    (e : TransitionEvent) (now : Nat) : OperationalState :=
  { s with
    currentMode := crisisStateReducer s.currentMode e
    currentRoute := targetRoute
    enteredAt := now }

/-- Modelled from the spec: the Navigation Guard's `requestTransition` — the
Guard is not in `src/`.  Steps: (1) look up the target route's static
permission record; (2) reject with a containment reason if the current mode is
not allowed; (3) reject if the State Machine has no transition for the event
in the current state; (4) reject if confirmation is required but not given;
(5) append the Journal intent, apply the transition and commit in one durable
transaction, mark the Journal entry committed, then signal the caller to
render.  The reserved panic route with `event = ESCALATE_CRISIS` bypasses the
`allowedModes` and reachability checks by design (spec §6, the one engineered
exception).  `persistOk` models whether the durable commit of step 5
succeeds; on failure the prior state remains authoritative.  The returned
trace lists the actions performed, in order. -/
def requestTransition (perm : Routes → RoutePermission) (s : OperationalState)
    (targetRoute : Routes) (e : TransitionEvent) (confirmed : Bool)
    (persistOk : Bool) (now : Nat) :
    GuardResult × OperationalState × List GuardAction :=
  if ¬(targetRoute = Routes.PANIC ∧ e = TransitionEvent.ESCALATE_CRISIS) ∧
      s.currentMode ∉ (perm targetRoute).allowedModes then
    (.Rejected .containment, s, [])
  else if ¬(targetRoute = Routes.PANIC ∧ e = TransitionEvent.ESCALATE_CRISIS) ∧
      tableDefined s.currentMode e = false then
    (.Rejected .fsmRejected, s, [])
  else if (perm targetRoute).requiresConfirmation = true ∧ confirmed = false then
    (.Rejected .unconfirmed, s, [])
  else if persistOk then
    (.Approved targetRoute, applyTransition s targetRoute e now,
     [.journalAppend, .storeCommit, .markCommitted, .signalRender targetRoute])
  else
    (.Rejected .persistenceFailure, s, [.journalAppend])

/-- `commitPrecedesRender tr comm marked` holds when every `signalRender` in
`tr` is preceded (within `tr`, or already by the flags) by both a
`storeCommit` and a `markCommitted`: no screen is signalled before its
transition is durably committed and the Journal entry marked. -/
def commitPrecedesRender : List GuardAction → Bool → Bool → Bool
  | [], _, _ => true
  | .storeCommit :: rest, _, marked => commitPrecedesRender rest true marked
  | .markCommitted :: rest, comm, _ => commitPrecedesRender rest comm true
  | .signalRender _ :: rest, comm, marked =>
      comm && marked && commitPrecedesRender rest comm marked
  | .journalAppend :: rest, comm, marked => commitPrecedesRender rest comm marked

/-- C2: every UI-originated navigation request goes through
`requestTransition`; in every trace the Guard produces, the render signal
comes only after the durable commit and the Journal commit-mark, and a
rejected request never signals a render at all. -/
theorem c2_render_only_after_commit (perm : Routes → RoutePermission)
    (s : OperationalState) (targetRoute : Routes) (e : TransitionEvent)
    (confirmed persistOk : Bool) (now : Nat) :
    commitPrecedesRender
        (requestTransition perm s targetRoute e confirmed persistOk now).2.2
        false false = true ∧
      (∀ (reason : RejectReason) (r : Routes),
        (requestTransition perm s targetRoute e confirmed persistOk now).1 =
            GuardResult.Rejected reason →
          GuardAction.signalRender r ∉
            (requestTransition perm s targetRoute e confirmed persistOk now).2.2) := by
  unfold requestTransition
  split
  · simp [commitPrecedesRender]
  · split
    · simp [commitPrecedesRender]
    · split
      · simp [commitPrecedesRender]
      · split
        · simp [commitPrecedesRender]
        · simp [commitPrecedesRender]

theorem c2_render_only_after_commit_witness :
    GuardAction.signalRender Routes.NIGHT_WATCH ∉
      (requestTransition
          (fun _ => ⟨[GriefOpsState.normal], true, false⟩)
          ⟨.normal, .OPS_SELECTOR, 0, none⟩ .NIGHT_WATCH
          .ESCALATE_CRISIS true false 1).2.2 :=
  (c2_render_only_after_commit (fun _ => ⟨[GriefOpsState.normal], true, false⟩)
      ⟨.normal, .OPS_SELECTOR, 0, none⟩ .NIGHT_WATCH .ESCALATE_CRISIS
      true false 1).2
    RejectReason.persistenceFailure Routes.NIGHT_WATCH (by decide)

/-- C3: error atomicity.  Whenever `requestTransition` rejects (for any
reason), the prior OperationalState remains unchanged — in particular the
`currentMode` never changes on an error; and whenever the durable commit of
step 5 fails, the result is a rejection and the prior state stands.  Mode
exit thus only ever happens through an approved (deliberate, confirmed where
required) transition. -/
theorem c3_reject_preserves_state (perm : Routes → RoutePermission)
    (s : OperationalState) (targetRoute : Routes) (e : TransitionEvent)
    (confirmed persistOk : Bool) (now : Nat) :
    (∀ reason : RejectReason,
      (requestTransition perm s targetRoute e confirmed persistOk now).1 =
          GuardResult.Rejected reason →
        (requestTransition perm s targetRoute e confirmed persistOk now).2.1 = s) ∧
      (persistOk = false →
        (requestTransition perm s targetRoute e confirmed persistOk now).1 =
            GuardResult.Rejected RejectReason.persistenceFailure ∨
          (requestTransition perm s targetRoute e confirmed persistOk now).1 =
              GuardResult.Rejected RejectReason.containment ∨
            (requestTransition perm s targetRoute e confirmed persistOk now).1 =
                GuardResult.Rejected RejectReason.fsmRejected ∨
              (requestTransition perm s targetRoute e confirmed persistOk now).1 =
                  GuardResult.Rejected RejectReason.unconfirmed) := by
  unfold requestTransition
  split
  · simp
  · split
    · simp
    · split
      · simp
      · split
        · rename_i hp
          simp_all
        · simp

theorem c3_reject_preserves_state_witness :
    (requestTransition (fun _ => ⟨[GriefOpsState.normal], true, false⟩)
        ⟨.normal, .OPS_SELECTOR, 0, none⟩ .NIGHT_WATCH
        .ESCALATE_CRISIS true false 1).2.1 =
      ⟨.normal, .OPS_SELECTOR, 0, none⟩ :=
  (c3_reject_preserves_state (fun _ => ⟨[GriefOpsState.normal], true, false⟩)
      ⟨.normal, .OPS_SELECTOR, 0, none⟩ .NIGHT_WATCH .ESCALATE_CRISIS
      true false 1).1
    RejectReason.persistenceFailure (by decide)

/-- C7: the panic-route exception.  A `requestTransition` to the reserved
panic route with `event = ESCALATE_CRISIS` is Approved from every current
state, bypassing the `allowedModes` permission check (here with a confirmed
request and a successful commit); and this is the only exception: any other
approved request has the current mode in the target route's `allowedModes`. -/
theorem c7_panic_route_exception :
    (∀ (perm : Routes → RoutePermission) (s : OperationalState) (now : Nat),
      (requestTransition perm s .PANIC .ESCALATE_CRISIS true true now).1 =
        GuardResult.Approved .PANIC) ∧
      (∀ (perm : Routes → RoutePermission) (s : OperationalState)
          (targetRoute : Routes) (e : TransitionEvent)
          (confirmed persistOk : Bool) (now : Nat) (r : Routes),
        ¬(targetRoute = Routes.PANIC ∧ e = TransitionEvent.ESCALATE_CRISIS) →
          (requestTransition perm s targetRoute e confirmed persistOk now).1 =
              GuardResult.Approved r →
            s.currentMode ∈ (perm targetRoute).allowedModes) := by
  constructor
  · intro perm s now
    simp [requestTransition]
  · intro perm s targetRoute e confirmed persistOk now r hnot happ
    by_cases hmem : s.currentMode ∈ (perm targetRoute).allowedModes
    · exact hmem
    · exfalso
      unfold requestTransition at happ
      split at happ
      · simp at happ
      · rename_i h1
        exact h1 ⟨hnot, hmem⟩

theorem c7_panic_route_exception_witness :
    ((requestTransition (fun _ => ⟨[], false, false⟩)
          ⟨.locked, .OPS_SELECTOR, 0, none⟩ .PANIC
          .ESCALATE_CRISIS true true 5).1 =
        GuardResult.Approved .PANIC) ∧
      GriefOpsState.normal ∈
        (((fun _ => (⟨[GriefOpsState.normal], true, false⟩ : RoutePermission))
            Routes.NIGHT_WATCH).allowedModes) :=
  ⟨c7_panic_route_exception.1 (fun _ => ⟨[], false, false⟩)
      ⟨.locked, .OPS_SELECTOR, 0, none⟩ 5,
   c7_panic_route_exception.2
      (fun _ => ⟨[GriefOpsState.normal], true, false⟩)
      ⟨.normal, .OPS_SELECTOR, 0, none⟩ .NIGHT_WATCH .ESCALATE_CRISIS true true 1
      .NIGHT_WATCH (by decide) (by decide)⟩

/-- Remote content payloads (opaque sanitized text). -/
def Content := String
deriving instance DecidableEq for Content

/-- Session status per the spec's data model. -/
inductive SessionStatus where
  | ACTIVE
  | COMPLETED
  | ABANDONED
  | RECOVERED
  deriving DecidableEq, Repr

/-- A SessionRecord row per the spec's data model. -/
structure SessionRecord where
  id : Nat
  mode : GriefOpsState
  startedAt : Nat
  lastCheckpointAt : Nat
  payload : Content
  status : SessionStatus
  deriving DecidableEq

/-- A ContentCacheEntry row per the spec's data model: remote-origin
reference data, never authoritative for operational state. -/
structure ContentCacheEntry where
  sourceId : Nat
  fetchedAt : Nat
  validatedAt : Nat
  content : Content
  deriving DecidableEq

/-- The durable tables the engine persists: the OperationalState record, the
SessionRecord table, and the content cache partition (one row per remote
source; modelled here with a single remote source). -/
structure Db where
  opState : OperationalState
  sessions : List SessionRecord
  cache : Option ContentCacheEntry
  deriving DecidableEq

/-- Outcome of one `sync()` run. -/
inductive SyncOutcome where
  | updated
  | skipped
  | failed
  deriving DecidableEq, Repr

/-- Modelled from the spec: the Opportunistic Sync Reconciler's `sync()` —
the Reconciler is not in `src/`.  Check connectivity and return `skipped`
immediately when offline; an interruption mid-batch leaves the transactional
batch unapplied (`failed`, nothing written); otherwise sanitize the fetched
remote content and write it to the ContentCacheEntry row only if it differs
from what the cache already holds.  Returns the resulting tables, the
outcome, and the number of cache writes performed by this run. -/
def sync (sanitize : Content → Content) (connected interrupted : Bool)
    (sourceId : Nat) (remote : Content) (now : Nat) (db : Db) :
    Db × SyncOutcome × Nat :=
  if connected = false then
    (db, .skipped, 0)
  else if interrupted = true then
    (db, .failed, 0)
  else if (db.cache.map fun entry => entry.content) = some (sanitize remote) then
    (db, .skipped, 0)
  else
    ({ db with
        cache := some
          { sourceId := sourceId
            fetchedAt := now
            validatedAt := now
            content := sanitize remote } },
     .updated, 1)

/-- `n` consecutive online, uninterrupted `sync()` runs against the same
remote payload, returning the final tables and the total number of cache
writes performed. -/
def syncRuns (sanitize : Content → Content) (sourceId : Nat) (remote : Content)
    (now : Nat) : Nat → Db → Db × Nat
  | 0, db => (db, 0)
  | n + 1, db =>
      match sync sanitize true false sourceId remote now db with
      | (db1, _, w) =>
          match syncRuns sanitize sourceId remote now n db1 with
          | (db2, ws) => (db2, w + ws)

lemma syncRuns_cached (sanitize : Content → Content) (sourceId : Nat)
    (remote : Content) (now : Nat) (n : Nat) (db : Db)
    (h : (db.cache.map fun entry => entry.content) = some (sanitize remote)) :
    syncRuns sanitize sourceId remote now n db = (db, 0) := by
  induction n with
  | zero => rfl
  | succ n ih =>
      simp only [syncRuns, sync, h]
      simp [ih]

/-- C8: sync idempotence.  For every `N ≥ 1`, calling `sync()` `N` times
while the remote content is unchanged (and the cache does not already hold
it) performs exactly one cache write in total: repeated runs with the same
remote payload perform no additional writes beyond the first. -/
theorem c8_sync_idempotent (sanitize : Content → Content) (sourceId : Nat)
    (remote : Content) (now : Nat) (n : Nat) (db : Db) (hn : 1 ≤ n)
    (hc : (db.cache.map fun entry => entry.content) ≠ some (sanitize remote)) :
    (syncRuns sanitize sourceId remote now n db).2 = 1 := by
  cases n with
  | zero => exact absurd hn (by decide)
  | succ n =>
      have h1 : sync sanitize true false sourceId remote now db =
          ({ db with cache := some ⟨sourceId, now, now, sanitize remote⟩ },
           .updated, 1) := by
        simp [sync, hc]
      simp only [syncRuns, h1]
      rw [syncRuns_cached sanitize sourceId remote now n _ (by simp)]
      rfl

theorem c8_sync_idempotent_witness :
    (1 ≤ 3 ∧
        ((⟨⟨.idle, .OPS_SELECTOR, 0, none⟩, [], none⟩ :
              Db).cache.map fun entry => entry.content) ≠
          some (id "calm-scripts-v2")) ∧
      (syncRuns id 7 "calm-scripts-v2" 4 3
          ⟨⟨.idle, .OPS_SELECTOR, 0, none⟩, [], none⟩).2 = 1 := by
  refine ⟨⟨by decide, by simp⟩, ?_⟩
  exact c8_sync_idempotent id 7 "calm-scripts-v2" 4 3
    ⟨⟨.idle, .OPS_SELECTOR, 0, none⟩, [], none⟩ (by decide) (by simp)

/-- C9: sync frame property.  Every execution of `sync()` writes only to the
ContentCacheEntry partition: the OperationalState and the SessionRecord table
are unchanged by any run, regardless of connectivity, interruption, or remote
content. -/
theorem c9_sync_frame (sanitize : Content → Content)
    (connected interrupted : Bool) (sourceId : Nat) (remote : Content)
    (now : Nat) (db : Db) :
    (sync sanitize connected interrupted sourceId remote now db).1.opState =
        db.opState ∧
      (sync sanitize connected interrupted sourceId remote now db).1.sessions =
        db.sessions := by
  unfold sync
  split
  · exact ⟨rfl, rfl⟩
  · split
    · exact ⟨rfl, rfl⟩
    · split
      · exact ⟨rfl, rfl⟩
      · exact ⟨rfl, rfl⟩

/-- The feature-flag record from `app/config/featureFlags` (referenced by the
screen; only the flag the screen reads is modelled). -/
structure FeatureFlags where
  ROAD_CAPTAIN_ENABLED : Bool

/-- The action labels of `OpsSelectorCopy.actions` (the copy table is
referenced by the screen; its concrete strings live outside `src/`). -/
structure OpsSelectorActions where
  NIGHT_WATCH : String
  FOREMAN : String
  ROAD_CAPTAIN : String

/-- The shape of `OpsSelectorCopy`. -/
structure OpsSelectorCopyShape where
  title : String
  actions : OpsSelectorActions

/-- The props of one rendered `Button`: its title, the route passed to
`nav.navigate` in its `onPress` handler, and its `disabled` prop (omitted in
JSX means not disabled). -/
structure ButtonProps where
  title : String
  navTarget : Routes
  disabled : Bool := false
  deriving DecidableEq

/-- Embedded from `OpsSelectorScreen` in
`src/features/opsSelector/screens/OpsSelectorScreen.tsx`: the three buttons
the screen renders, in order — Night Watch, Foreman, and Road Captain, the
last with title suffix " (Locked)", `onPress` navigating to
`Routes.ROAD_CAPTAIN_LOCKED`, and `disabled={FeatureFlags.ROAD_CAPTAIN_ENABLED}`. -/
def opsSelectorScreenButtons (copy : OpsSelectorCopyShape)
    (flags : FeatureFlags) : List ButtonProps :=
  [ { title := copy.actions.NIGHT_WATCH, navTarget := .NIGHT_WATCH },
    { title := copy.actions.FOREMAN, navTarget := .FOREMAN },
    { title := copy.actions.ROAD_CAPTAIN ++ " (Locked)",
      navTarget := .ROAD_CAPTAIN_LOCKED,
      disabled := flags.ROAD_CAPTAIN_ENABLED } ]

/-- C10: in `OpsSelectorScreen` there is a Road Captain button; every button
whose press navigates to `ROAD_CAPTAIN_LOCKED` does so unconditionally, and
it is interactive (not disabled) exactly when `FeatureFlags.ROAD_CAPTAIN_ENABLED`
is false — tappable while the flag says the mode is disabled, untappable when
the flag is enabled. -/
theorem c10_road_captain_button (copy : OpsSelectorCopyShape)
    (flags : FeatureFlags) :
    (∃ b ∈ opsSelectorScreenButtons copy flags,
        b.navTarget = Routes.ROAD_CAPTAIN_LOCKED) ∧
      (∀ b ∈ opsSelectorScreenButtons copy flags,
        b.navTarget = Routes.ROAD_CAPTAIN_LOCKED →
          (b.disabled = false ↔ flags.ROAD_CAPTAIN_ENABLED = false)) := by
  constructor
  · exact ⟨{ title := copy.actions.ROAD_CAPTAIN ++ " (Locked)",
             navTarget := .ROAD_CAPTAIN_LOCKED,
             disabled := flags.ROAD_CAPTAIN_ENABLED },
      by simp [opsSelectorScreenButtons], rfl⟩
  · intro b hb htarget
    simp only [opsSelectorScreenButtons, List.mem_cons, List.mem_singleton,
      List.not_mem_nil, or_false] at hb
    rcases hb with h | h | h
    · rw [h] at htarget; cases htarget
    · rw [h] at htarget; cases htarget
    · rw [h]

theorem c10_road_captain_button_witness :
    ((⟨"rc (Locked)", Routes.ROAD_CAPTAIN_LOCKED, false⟩ : ButtonProps) ∈
        opsSelectorScreenButtons ⟨"Choose", "nw", "fm", "rc"⟩ ⟨false⟩ ∧
      (⟨"rc (Locked)", Routes.ROAD_CAPTAIN_LOCKED, false⟩ :
          ButtonProps).navTarget = Routes.ROAD_CAPTAIN_LOCKED) ∧
      ((⟨"rc (Locked)", Routes.ROAD_CAPTAIN_LOCKED, false⟩ :
          ButtonProps).disabled = false ↔
        (⟨false⟩ : FeatureFlags).ROAD_CAPTAIN_ENABLED = false) := by
  refine ⟨⟨by simp [opsSelectorScreenButtons], rfl⟩, ?_⟩
  exact (c10_road_captain_button ⟨"Choose", "nw", "fm", "rc"⟩ ⟨false⟩).2
    ⟨"rc (Locked)", Routes.ROAD_CAPTAIN_LOCKED, false⟩
    (by simp [opsSelectorScreenButtons]) rfl
